import Mathlib

/-!
Shallow embedding of the `findmy-solution-2025` location tracker.

The repository polls an Apple device-location provider, normalizes each
device into a MongoDB document, appends the documents to a collection,
and serves the most recent document over a small Flask API.

We embed the three relevant source files:
  * `track_location/track_to_mongodb.py` (and its `_docker` twin, whose
    mapping and persistence code is identical): `fetch_device_locations`,
    `save_to_mongodb`, `track_continuously`;
  * `track_location/app.py`: `require_api_key`, `track_location`
    (the background poll loop), `get_location`, `get_status`,
    `trigger_alarm`.

Modelling conventions:
  * Python `datetime` values are abstract clock ticks (`Nat`); a run is
    parametrized by a `clock : Nat → Nat` read at successive indices, so
    "`datetime.now()` called later" is "`clock` applied to a larger index".
  * Python dict fields that may be absent are `Option` fields; `.get(k)`
    is the field itself, `.get(k, default)` is `Option.getD`.
  * Numbers carried by records (battery fraction, coordinates) are `ℚ`;
    no arithmetic is done on them by the embedded code.
  * MongoDB documents are Lean structures; the collection is a `List` in
    insertion (natural) order.  `insert_one`/`insert_many` append;
    `find_one(sort=[("timestamp", -1)])` picks a document maximizing the
    timestamp, where a missing timestamp sorts below every present one
    (MongoDB's missing-field sort semantics), ties resolved to the
    earliest document, and raising code paths return explicit error
    values.
-/

/-- A JSON-like value, used to state dict-level equalities about the
documents the Python code builds. -/
inductive Val where
  | null : Val
  | str : String → Val
  | num : ℚ → Val
  | bool : Bool → Val
  | arr : List Val → Val
  | obj : List (String × Val) → Val

/-- The `device.data` dict of a pyicloud device: every field the embedded
code reads, each possibly absent. -/
structure DeviceData where
  id : Option String
  name : Option String
  deviceDisplayName : Option String
  deviceClass : Option String
  rawDeviceModel : Option String
  deviceStatus : Option String
  locationEnabled : Option Bool
deriving DecidableEq, Repr

/-- The `device.status()` dict: battery fields, each possibly absent. -/
structure DeviceStatus where
  batteryLevel : Option ℚ
  batteryStatus : Option String
deriving DecidableEq, Repr

/-- The location dict returned by `device.location()` / `device.location`:
every field the embedded code reads, each possibly absent. -/
structure LocationData where
  latitude : Option ℚ
  longitude : Option ℚ
  horizontalAccuracy : Option ℚ
  positionType : Option String
  isOld : Option Bool
  timeStamp : Option ℤ
deriving DecidableEq, Repr

/-- One device as the provider hands it to the poll loop.  `location` is
`none` when the location call returned nothing or raised (both are caught
and collapsed to `None` by the Python `try/except`). -/
structure DeviceInput where
  data : DeviceData
  status : DeviceStatus
  location : Option LocationData
deriving DecidableEq, Repr

/-- The GeoJSON `location` field built by the mappers:
`{"type": "Point", "coordinates": [longitude, latitude]}`. -/
structure GeoPoint where
  type : String
  coordinates : List (Option ℚ)
deriving DecidableEq, Repr

/-- The nested `location_data` dict built by the mappers. -/
structure LocData where
  latitude : Option ℚ
  longitude : Option ℚ
  accuracy : Option ℚ
  position_type : Option String
  is_old : Bool
  location_timestamp : Option ℤ
deriving DecidableEq, Repr

/-- The document built per device by `fetch_device_locations` in
`track_to_mongodb.py` (identical in `track_to_mongodb_docker.py`).
`timestamp` is `datetime.now()` there, modelled as a clock tick. -/
structure DeviceInfo where
  device_id : Option String
  name : String
  model : String
  device_class : String
  raw_model : String
  battery_level : Option ℚ
  battery_status : Option String
  device_status : Option String
  location_enabled : Bool
  timestamp : Option ℕ
  location : Option GeoPoint
  location_data : Option LocData
deriving DecidableEq, Repr

/-- The location sub-dicts shared by both mappers:
`location` (GeoJSON) and `location_data`, or both `None` when the
location is unavailable. -/
def mapLocation (loc : Option LocationData) : Option GeoPoint × Option LocData :=
  match loc with
  | some l =>
      (some { type := "Point", coordinates := [l.longitude, l.latitude] },
       some { latitude := l.latitude
              longitude := l.longitude
              accuracy := l.horizontalAccuracy
              position_type := l.positionType
              is_old := l.isOld.getD false
              location_timestamp := l.timeStamp })
  | none => (none, none)

/-- The per-device body of `fetch_device_locations`
(`track_to_mongodb.py`, lines 96–127): builds `device_info`, with
`"timestamp": datetime.now()` modelled as the tick `now`. -/
def fetchMapDevice (dev : DeviceInput) (now : ℕ) : DeviceInfo :=
  let pair := mapLocation dev.location
  { device_id := dev.data.id
    name := dev.data.name.getD "Unknown"
    model := dev.data.deviceDisplayName.getD "Unknown"
    device_class := dev.data.deviceClass.getD "Unknown"
    raw_model := dev.data.rawDeviceModel.getD "Unknown"
    battery_level := dev.status.batteryLevel
    battery_status := dev.status.batteryStatus
    device_status := dev.data.deviceStatus
    location_enabled := dev.data.locationEnabled.getD false
    timestamp := some now
    location := pair.1
    location_data := pair.2 }

/-- `fetch_device_locations` over a device list: `datetime.now()` is
called once per device, so device `j` reads the clock at index
`tick + j`. -/
def fetch_device_locations (clock : ℕ → ℕ) : ℕ → List DeviceInput → List DeviceInfo
  | _, [] => []
  | tick, dev :: rest =>
      fetchMapDevice dev (clock tick) :: fetch_device_locations clock (tick + 1) rest

/-- `save_to_mongodb` (lines 140–151): `insert_many` appends the documents
in order and reports how many ids were inserted. -/
def save_to_mongodb (collection : List DeviceInfo) (locations : List DeviceInfo) :
    List DeviceInfo × ℕ :=
  if locations.isEmpty then (collection, 0)
  else (collection ++ locations, locations.length)

/-- Outcome of one standalone-tracker iteration.  `fetch_device_locations`
catches every provider error internally and returns `[]`; `save_to_mongodb`
catches every write error and returns `0`; both are modelled as explicit
outcomes of the iteration. -/
inductive TrackOutcome where
  | ok : TrackOutcome
  | fetchErr : TrackOutcome
  | saveErr : TrackOutcome
deriving DecidableEq, Repr

/-- State threaded through `track_continuously`: the MongoDB collection in
insertion order, and how many times `datetime.now()` has been read. -/
structure TrackState where
  sink : List DeviceInfo
  tick : ℕ
deriving DecidableEq, Repr

/-- One iteration of `track_continuously` (lines 192–208): fetch, then
save; a provider failure yields `[]` from `fetch_device_locations` (so
nothing is saved), and a write failure leaves the collection unchanged. -/
def trackIteration (clock : ℕ → ℕ) (devs : List DeviceInput) (o : TrackOutcome)
    (st : TrackState) : TrackState :=
  match o with
  | .ok =>
      let locations := fetch_device_locations clock st.tick devs
      { sink := (save_to_mongodb st.sink locations).1, tick := st.tick + devs.length }
  | .fetchErr => st
  | .saveErr =>
      { sink := st.sink, tick := st.tick + devs.length }

/-- `track_continuously`: the `while True` loop runs one iteration per
listed outcome; every error is caught inside the iteration, so each
listed iteration executes regardless of earlier failures. -/
def track_continuously (clock : ℕ → ℕ) (devs : List DeviceInput) :
    List TrackOutcome → TrackState → TrackState
  | [], st => st
  | o :: rest, st => track_continuously clock devs rest (trackIteration clock devs o st)

/-- `timestamp`-descending comparison used by
`find_one(sort=[("timestamp", -1)])`: a missing timestamp sorts below
every present one (MongoDB missing-field semantics). -/
def tsGe (a b : Option ℕ) : Bool :=
  match a, b with
  | none, none => true
  | none, some _ => false
  | some _, none => true
  | some x, some y => y ≤ x

/-- Strict version of the same order. -/
def tsLt (a b : Option ℕ) : Bool :=
  match a, b with
  | none, some _ => true
  | some x, some y => x < y
  | _, _ => false

/-- A document maximizing `key` under the Mongo timestamp order, the
earliest such document on ties. -/
def argmaxTs {α : Type} (key : α → Option ℕ) : List α → Option α
  | [] => none
  | r :: rs =>
      match argmaxTs key rs with
      | none => some r
      | some m => if tsGe (key r) (key m) then some r else some m

/-- `find_one({"device_id": d}, sort=[("timestamp", -1)])` over a
collection of standalone-tracker documents. -/
def mostRecentFor (sink : List DeviceInfo) (d : Option String) : Option DeviceInfo :=
  argmaxTs (fun r => r.timestamp) (sink.filter (fun r => r.device_id == d))

/-- The document built by the poll loop in `app.py` (lines 156–189): no
`raw_model`/`device_status`/`location_enabled` fields, and no `timestamp`
— the comment in the source says "timestamp will be auto-generated by
MongoDB".  `timestamp` is `none` until the follow-up update writes it. -/
structure AppRecord where
  device_id : Option String
  name : String
  model : String
  device_class : String
  battery_level : Option ℚ
  battery_status : Option String
  timestamp : Option ℕ
  location : Option GeoPoint
  location_data : Option LocData
deriving DecidableEq, Repr

/-- The mapping step of `track_location` in `app.py`: builds
`device_info` with no timestamp field. -/
def appMapDevice (dev : DeviceInput) : AppRecord :=
  let pair := mapLocation dev.location
  { device_id := dev.data.id
    name := dev.data.name.getD "Unknown"
    model := dev.data.deviceDisplayName.getD "Unknown"
    device_class := dev.data.deviceClass.getD "Unknown"
    battery_level := dev.status.batteryLevel
    battery_status := dev.status.batteryStatus
    timestamp := none
    location := pair.1
    location_data := pair.2 }

/-- A document as stored in the collection, with its MongoDB `_id`. -/
structure Stored where
  oid : ℕ
  doc : AppRecord
deriving DecidableEq, Repr

/-- `insert_one`: appends the document with a fresh `_id` and returns the
inserted id. -/
def insertOne (sink : List Stored) (r : AppRecord) : List Stored × ℕ :=
  (sink ++ [{ oid := sink.length, doc := r }], sink.length)

/-- `update_one({"_id": oid}, {"$currentDate": {"timestamp": True}})`:
sets the server-generated timestamp on the matching document. -/
def updateTimestamp (sink : List Stored) (oid : ℕ) (serverNow : ℕ) : List Stored :=
  sink.map (fun s =>
    if s.oid = oid then { s with doc := { s.doc with timestamp := some serverNow } } else s)

/-- Where a single `track_location` iteration in `app.py` can fail.  The
whole body sits in one `try/except` that prints and falls through to the
sleep, so every outcome continues the loop. -/
inductive AppOutcome where
  | ok : AppOutcome
  | fetchErr : AppOutcome
  | insertErr : AppOutcome
  | updateErr : AppOutcome
deriving DecidableEq, Repr

/-- One iteration of the `app.py` poll loop (lines 144–205): map the
target device, `insert_one` the document (still timestampless), then
`update_one` with `$currentDate`.  An error before the insert leaves the
collection unchanged; an error in the update leaves the inserted
document without a timestamp.  `serverNow` is the MongoDB server clock
tick used by `$currentDate`. -/
def appIteration (dev : DeviceInput) (serverNow : ℕ) (o : AppOutcome)
    (sink : List Stored) : List Stored :=
  match o with
  | .ok =>
      let inserted := insertOne sink (appMapDevice dev)
      updateTimestamp inserted.1 inserted.2 serverNow
  | .fetchErr => sink
  | .insertErr => sink
  | .updateErr => (insertOne sink (appMapDevice dev)).1

/-- `track_location`: the `while tracking_active` loop, one iteration per
listed outcome; the `try/except` inside the loop means every listed
iteration executes. -/
def track_location (dev : DeviceInput) (serverClock : ℕ → ℕ) :
    List AppOutcome → ℕ → List Stored → List Stored
  | [], _, sink => sink
  | o :: rest, i, sink =>
      track_location dev serverClock rest (i + 1) (appIteration dev (serverClock i) o sink)

/-- Python truthiness of an optional string: `None` and `""` are falsy. -/
def strTruthy : Option String → Bool
  | none => false
  | some s => !s.isEmpty

/-- Result of the `require_api_key` decorator. -/
inductive AuthResult where
  | misconfigured : AuthResult
  | missingKey : AuthResult
  | invalidKey : AuthResult
  | authorized : AuthResult
deriving DecidableEq, Repr

/-- The `provided_key` computed by the decorator: the `X-API-Key` header,
falling back to the `api_key` query parameter when the header is falsy. -/
def providedKey (header query : Option String) : Option String :=
  if strTruthy header then header else query

/-- `require_api_key` (`app.py`, lines 35–67): a falsy configured
`API_KEY` is a 500; a falsy provided key is a 401; a provided key
different from the configured one is a 403. -/
def require_api_key (apiKey header query : Option String) : AuthResult :=
  if !strTruthy apiKey then .misconfigured
  else
    let provided := providedKey header query
    if !strTruthy provided then .missingKey
    else if provided ≠ apiKey then .invalidKey
    else .authorized

/-- Response of `GET /location`.  `keyError` is the path where the stored
document has no `timestamp` field, so `latest["timestamp"].isoformat()`
raises and the handler's `except` returns a 500. -/
inductive GetLocResult where
  | misconfigured : GetLocResult
  | missingKey : GetLocResult
  | invalidKey : GetLocResult
  | noData : GetLocResult
  | keyError : GetLocResult
  | found : String → String → AppRecord → GetLocResult
deriving DecidableEq, Repr

/-- HTTP status of each `GET /location` response. -/
def GetLocResult.statusCode : GetLocResult → ℕ
  | .misconfigured => 500
  | .missingKey => 401
  | .invalidKey => 403
  | .noData => 404
  | .keyError => 500
  | .found _ _ _ => 200

/-- Abstract ISO-8601 rendering of a clock tick (`datetime.isoformat`). -/
def isoformat (t : ℕ) : String := toString t

/-- `find_one({"device_id": d}, sort=[("timestamp", -1)])` over the
`app.py` collection. -/
def mostRecentStored (sink : List Stored) (d : Option String) : Option Stored :=
  argmaxTs (fun s => s.doc.timestamp) (sink.filter (fun s => s.doc.device_id == d))

/-- `get_location` (`app.py`, lines 221–242): auth gate, then the
most-recent query for the target device; a missing document is a 404; a
found document is returned with `_id` stringified and `timestamp`
ISO-formatted, the latter raising (500) when the field is absent. -/
def get_location (apiKey header query : Option String) (sink : List Stored)
    (d : Option String) : GetLocResult :=
  match require_api_key apiKey header query with
  | .misconfigured => .misconfigured
  | .missingKey => .missingKey
  | .invalidKey => .invalidKey
  | .authorized =>
      match mostRecentStored sink d with
      | none => .noData
      | some s =>
          match s.doc.timestamp with
          | none => .keyError
          | some t => .found (toString s.oid) (isoformat t) s.doc

/-- Generic envelope for the other two protected endpoints. -/
inductive HttpResp (α : Type) where
  | misconfigured : HttpResp α
  | missingKey : HttpResp α
  | invalidKey : HttpResp α
  | body : α → HttpResp α
deriving DecidableEq, Repr

/-- HTTP status of an `HttpResp` (both remaining handlers return 200 on
their success path). -/
def HttpResp.statusCode {α : Type} : HttpResp α → ℕ
  | .misconfigured => 500
  | .missingKey => 401
  | .invalidKey => 403
  | .body _ => 200

/-- Success body of `GET /status`. -/
structure StatusBody where
  device_id : Option String
  name : Option String
  model : Option String
  battery_level : Option ℚ
  battery_status : Option String
  device_status : Option String
  location_enabled : Option Bool
  timestamp : String
deriving DecidableEq, Repr

/-- `get_status` (`app.py`, lines 266–286): auth gate, then a live
status read. -/
def get_status (apiKey header query : Option String) (dev : DeviceInput)
    (now : ℕ) : HttpResp StatusBody :=
  match require_api_key apiKey header query with
  | .misconfigured => .misconfigured
  | .missingKey => .missingKey
  | .invalidKey => .invalidKey
  | .authorized =>
      .body { device_id := dev.data.id
              name := dev.data.name
              model := dev.data.deviceDisplayName
              battery_level := dev.status.batteryLevel
              battery_status := dev.status.batteryStatus
              device_status := dev.data.deviceStatus
              location_enabled := dev.data.locationEnabled
              timestamp := isoformat now }

/-- Success body of `POST /alarm`: the played-sound acknowledgement. -/
structure AlarmBody where
  soundPlayed : Bool
  message : String
  timestamp : String
deriving DecidableEq, Repr

/-- `trigger_alarm` (`app.py`, lines 245–263): auth gate, then
`play_sound` and a success envelope. -/
def trigger_alarm (apiKey header query : Option String) (dev : DeviceInput)
    (now : ℕ) : HttpResp AlarmBody :=
  match require_api_key apiKey header query with
  | .misconfigured => .misconfigured
  | .missingKey => .missingKey
  | .invalidKey => .invalidKey
  | .authorized =>
      .body { soundPlayed := true
              message := "Alarm triggered on " ++ dev.data.name.getD "None"
              timestamp := isoformat now }

/-- JSON encoding of an optional string (`None` serializes to null). -/
def optStr : Option String → Val
  | none => Val.null
  | some s => Val.str s

/-- JSON encoding of an optional number. -/
def optNum : Option ℚ → Val
  | none => Val.null
  | some q => Val.num q

/-- JSON encoding of an optional integer timestamp. -/
def optInt : Option ℤ → Val
  | none => Val.null
  | some z => Val.num (z : ℚ)

/-- JSON encoding of the GeoJSON `location` field. -/
def geoToVal : Option GeoPoint → Val
  | none => Val.null
  | some g => Val.obj [("type", Val.str g.type),
                       ("coordinates", Val.arr (g.coordinates.map optNum))]

/-- JSON encoding of the `location_data` field. -/
def locDataToVal : Option LocData → Val
  | none => Val.null
  | some l => Val.obj [("latitude", optNum l.latitude),
                       ("longitude", optNum l.longitude),
                       ("accuracy", optNum l.accuracy),
                       ("position_type", optStr l.position_type),
                       ("is_old", Val.bool l.is_old),
                       ("location_timestamp", optInt l.location_timestamp)]

/-- The `device_info` dict exactly as `fetch_device_locations` builds it,
keys in source order. -/
def deviceInfoDict (r : DeviceInfo) : List (String × Val) :=
  [("device_id", optStr r.device_id),
   ("name", Val.str r.name),
   ("model", Val.str r.model),
   ("device_class", Val.str r.device_class),
   ("raw_model", Val.str r.raw_model),
   ("battery_level", optNum r.battery_level),
   ("battery_status", optStr r.battery_status),
   ("device_status", optStr r.device_status),
   ("location_enabled", Val.bool r.location_enabled),
   ("timestamp", match r.timestamp with | none => Val.null | some t => Val.num t),
   ("location", geoToVal r.location),
   ("location_data", locDataToVal r.location_data)]

/-- Modelled from the spec (§8, example): the expected normalized record
`\x7bname, model, battery_level, location: \x7blat, lon, accuracy,
timestamp\x7d\x7d` for the "Jane" device, written from the spec's words for
comparison against the record the source actually builds. -/
def specExpectedRecord (T : ℤ) : List (String × Val) :=
  [("name", Val.str "Jane\x27s iPhone"),
   ("model", Val.str "iPhone 16 Pro"),
   ("battery_level", Val.num (82/100)),
   ("location", Val.obj [("lat", Val.num (377749/10000)),
                         ("lon", Val.num (-1224194/10000)),
                         ("accuracy", Val.num 5),
                         ("timestamp", Val.num (T : ℚ))])]

/-- The §8 example's provider input: Jane's device with battery fraction
0.82 and the example fix (37.7749, -122.4194, accuracy 5.0, fix-time
`T`). -/
def janeInput (T : ℤ) : DeviceInput :=
  { data := { id := some "jane-device-id"
              name := some "Jane\x27s iPhone"
              deviceDisplayName := some "iPhone 16 Pro"
              deviceClass := none
              rawDeviceModel := none
              deviceStatus := none
              locationEnabled := none }
    status := { batteryLevel := some (82/100), batteryStatus := none }
    location := some { latitude := some (377749/10000)
                       longitude := some (-1224194/10000)
                       horizontalAccuracy := some 5
                       positionType := none
                       isOld := none
                       timeStamp := some T } }

/-- A minimal concrete device used to instantiate quantified theorems. -/
def sampleDevice : DeviceInput :=
  { data := { id := some "A"
              name := none
              deviceDisplayName := none
              deviceClass := none
              rawDeviceModel := none
              deviceStatus := none
              locationEnabled := none }
    status := { batteryLevel := none, batteryStatus := none }
    location := none }

lemma tsGe_refl (a : Option ℕ) : tsGe a a = true := by
  cases a <;> simp [tsGe]

lemma tsGe_some_some {x y : ℕ} : tsGe (some x) (some y) = true ↔ y ≤ x := by
  simp [tsGe]

lemma tsLt_some_some {x y : ℕ} : tsLt (some x) (some y) = true ↔ x < y := by
  simp [tsLt]

lemma tsGe_of_tsLt {a b : Option ℕ} (h : tsLt a b = true) : tsGe b a = true := by
  cases a <;> cases b <;> simp_all [tsLt, tsGe]
  omega

lemma tsGe_eq_false_of_tsLt {a b : Option ℕ} (h : tsLt a b = true) :
    tsGe a b = false := by
  cases a <;> cases b <;> simp_all [tsLt, tsGe]

lemma argmaxTs_mem {α : Type} {key : α → Option ℕ} :
    ∀ {l : List α} {m : α}, argmaxTs key l = some m → m ∈ l := by
  intro l
  induction l with
  | nil => intro m h; simp [argmaxTs] at h
  | cons x xs ih =>
      intro m h
      rw [argmaxTs] at h
      rcases hx : argmaxTs key xs with _ | r
      · rw [hx] at h
        simp at h
        simp [h]
      · rw [hx] at h
        by_cases hge : tsGe (key x) (key r) = true
        · simp [hge] at h
          simp [h]
        · simp [hge] at h
          exact List.mem_cons_of_mem _ (ih (h ▸ hx))

lemma argmaxTs_eq_of_max {α : Type} {key : α → Option ℕ} :
    ∀ {l : List α} {m : α}, m ∈ l →
      (∀ x ∈ l, x ≠ m → tsLt (key x) (key m) = true) →
      argmaxTs key l = some m := by
  intro l
  induction l with
  | nil => intro m h; simp at h
  | cons y ys ih =>
      intro m hm hmax
      rw [argmaxTs]
      by_cases hym : y = m
      · subst hym
        rcases hx : argmaxTs key ys with _ | r
        · rfl
        · have hr : r ∈ ys := argmaxTs_mem hx
          by_cases hrm : r = y
          · subst hrm
            simp [tsGe_refl]
          · have := hmax r (List.mem_cons_of_mem _ hr) hrm
            simp [tsGe_of_tsLt this]
      · have hmem : m ∈ ys := by
          rcases List.mem_cons.mp hm with h1 | h2
          · exact absurd h1.symm hym
          · exact h2
        have hrec := ih hmem (fun x hx hxm => hmax x (List.mem_cons_of_mem _ hx) hxm)
        rw [hrec]
        have hylt := hmax y (List.mem_cons_self y ys) hym
        simp [tsGe_eq_false_of_tsLt hylt]

lemma fetchMapDevice_timestamp (dev : DeviceInput) (now : ℕ) :
    (fetchMapDevice dev now).timestamp = some now := rfl

lemma fetchMapDevice_device_id (dev : DeviceInput) (now : ℕ) :
    (fetchMapDevice dev now).device_id = dev.data.id := rfl

lemma fetch_device_locations_length (clock : ℕ → ℕ) (devs : List DeviceInput) :
    ∀ t, (fetch_device_locations clock t devs).length = devs.length := by
  induction devs with
  | nil => intro t; rfl
  | cons d rest ih =>
      intro t
      simp [fetch_device_locations, ih]

lemma mem_fetch_device_locations {clock : ℕ → ℕ} {devs : List DeviceInput}
    {r : DeviceInfo} :
    ∀ {t}, r ∈ fetch_device_locations clock t devs ↔
      ∃ j, ∃ h : j < devs.length, r = fetchMapDevice (devs.get ⟨j, h⟩) (clock (t + j)) := by
  induction devs with
  | nil => intro t; simp [fetch_device_locations]
  | cons d rest ih =>
      intro t
      rw [fetch_device_locations]
      simp only [List.mem_cons, ih]
      constructor
      · rintro (hr | ⟨j, hj, hr⟩)
        · exact ⟨0, by simp, by simpa using hr⟩
        · refine ⟨j + 1, by simpa using hj, ?_⟩
          simpa [Nat.add_assoc, Nat.add_comm 1 j] using hr
      · rintro ⟨j, hj, hr⟩
        cases j with
        | zero => exact Or.inl (by simpa using hr)
        | succ j =>
            refine Or.inr ⟨j, by simpa using hj, ?_⟩
            simpa [Nat.add_assoc, Nat.add_comm 1 j] using hr

lemma fetch_device_locations_timestamps {clock : ℕ → ℕ} {devs : List DeviceInput}
    {r : DeviceInfo} {t : ℕ} (hr : r ∈ fetch_device_locations clock t devs) :
    ∃ k, t ≤ k ∧ k < t + devs.length ∧ r.timestamp = some (clock k) := by
  rcases mem_fetch_device_locations.mp hr with ⟨j, hj, hre⟩
  exact ⟨t + j, by omega, by omega, by rw [hre, fetchMapDevice_timestamp]⟩

lemma fetch_device_locations_pairwise (clock : ℕ → ℕ) (hm : Monotone clock)
    (devs : List DeviceInput) :
    ∀ t, (fetch_device_locations clock t devs).Pairwise
      (fun a b => tsGe b.timestamp a.timestamp = true) := by
  induction devs with
  | nil => intro t; simp [fetch_device_locations]
  | cons d rest ih =>
      intro t
      rw [fetch_device_locations]
      refine List.pairwise_cons.mpr ⟨?_, ih (t + 1)⟩
      intro b hb
      rcases fetch_device_locations_timestamps hb with ⟨k, hk1, _, hk3⟩
      rw [hk3, fetchMapDevice_timestamp]
      exact tsGe_some_some.mpr (hm (by omega))

lemma save_to_mongodb_sink (c locs : List DeviceInfo) :
    (save_to_mongodb c locs).1 = c ++ locs := by
  rw [save_to_mongodb]
  rcases locs with _ | ⟨x, xs⟩
  · simp
  · simp

/-- The documents appended by `n` consecutive successful iterations whose
first iteration starts at tick `t`. -/
def okBatches (clock : ℕ → ℕ) (devs : List DeviceInput) : ℕ → ℕ → List DeviceInfo
  | _, 0 => []
  | t, n + 1 =>
      fetch_device_locations clock t devs ++ okBatches clock devs (t + devs.length) n

lemma track_continuously_ok_run (clock : ℕ → ℕ) (devs : List DeviceInput) :
    ∀ (n : ℕ) (st : TrackState),
      track_continuously clock devs (List.replicate n .ok) st =
        ⟨st.sink ++ okBatches clock devs st.tick n, st.tick + n * devs.length⟩ := by
  intro n
  induction n with
  | zero => intro st; simp [track_continuously, okBatches]
  | succ n ih =>
      intro st
      rw [List.replicate_succ]
      show track_continuously clock devs (List.replicate n .ok) (trackIteration clock devs .ok st) = _
      rw [ih]
      simp only [trackIteration, save_to_mongodb_sink, okBatches, TrackState.mk.injEq,
        List.append_assoc]
      exact ⟨trivial, by ring⟩

lemma okBatches_length (clock : ℕ → ℕ) (devs : List DeviceInput) :
    ∀ (n t : ℕ), (okBatches clock devs t n).length = n * devs.length := by
  intro n
  induction n with
  | zero => intro t; simp [okBatches]
  | succ n ih =>
      intro t
      simp [okBatches, fetch_device_locations_length, ih]
      ring

lemma mem_okBatches {clock : ℕ → ℕ} {devs : List DeviceInput} {r : DeviceInfo} :
    ∀ {n t : ℕ}, r ∈ okBatches clock devs t n ↔
      ∃ i, i < n ∧ r ∈ fetch_device_locations clock (t + i * devs.length) devs := by
  intro n
  induction n with
  | zero => intro t; simp [okBatches]
  | succ n ih =>
      intro t
      rw [okBatches]
      simp only [List.mem_append, ih]
      constructor
      · rintro (h | ⟨i, hi, h⟩)
        · exact ⟨0, by omega, by simpa using h⟩
        · refine ⟨i + 1, by omega, ?_⟩
          have he : t + devs.length + i * devs.length = t + (i + 1) * devs.length := by ring
          rwa [he] at h
      · rintro ⟨i, hi, h⟩
        cases i with
        | zero => exact Or.inl (by simpa using h)
        | succ i =>
            refine Or.inr ⟨i, by omega, ?_⟩
            have he : t + (i + 1) * devs.length = t + devs.length + i * devs.length := by ring
            rwa [he] at h

lemma track_continuously_sink_pairwise (clock : ℕ → ℕ) (hm : Monotone clock)
    (devs : List DeviceInput) :
    ∀ (os : List TrackOutcome) (st : TrackState),
      st.sink.Pairwise (fun a b => tsGe b.timestamp a.timestamp = true) →
      (∀ r ∈ st.sink, ∃ k, k < st.tick ∧ r.timestamp = some (clock k)) →
      ((track_continuously clock devs os st).sink.Pairwise
          (fun a b => tsGe b.timestamp a.timestamp = true) ∧
        ∀ r ∈ (track_continuously clock devs os st).sink,
          ∃ k, k < (track_continuously clock devs os st).tick ∧
            r.timestamp = some (clock k)) := by
  intro os
  induction os with
  | nil => intro st h1 h2; exact ⟨h1, h2⟩
  | cons o rest ih =>
      intro st h1 h2
      show (track_continuously clock devs rest (trackIteration clock devs o st)).sink.Pairwise _ ∧ _
      cases o with
      | fetchErr => exact ih st h1 h2
      | saveErr =>
          apply ih
          · exact h1
          · intro r hr
            rcases h2 r hr with ⟨k, hk, he⟩
            exact ⟨k, by simp [trackIteration]; omega, he⟩
      | ok =>
          apply ih
          · simp only [trackIteration, save_to_mongodb_sink]
            refine List.pairwise_append.mpr ⟨h1, fetch_device_locations_pairwise clock hm devs _, ?_⟩
            intro a ha b hb
            rcases h2 a ha with ⟨k, hk, he⟩
            rcases fetch_device_locations_timestamps hb with ⟨m, hm1, _, hm3⟩
            rw [he, hm3]
            exact tsGe_some_some.mpr (hm (by omega))
          · simp only [trackIteration, save_to_mongodb_sink]
            intro r hr
            rcases List.mem_append.mp hr with hr | hr
            · rcases h2 r hr with ⟨k, hk, he⟩
              exact ⟨k, by omega, he⟩
            · rcases fetch_device_locations_timestamps hr with ⟨k, hk1, hk2, hk3⟩
              exact ⟨k, by omega, hk3⟩

lemma appMapDevice_timestamp (dev : DeviceInput) :
    (appMapDevice dev).timestamp = none := rfl

lemma appMapDevice_device_id (dev : DeviceInput) :
    (appMapDevice dev).device_id = dev.data.id := rfl

lemma updateTimestamp_no_match (oid now : ℕ) :
    ∀ (sink : List Stored), (∀ x ∈ sink, x.oid ≠ oid) →
      updateTimestamp sink oid now = sink := by
  intro sink
  induction sink with
  | nil => intro h; rfl
  | cons x xs ih =>
      intro h
      simp only [updateTimestamp, List.map_cons]
      rw [if_neg (h x (List.mem_cons_self x xs))]
      have hxs := ih (fun y hy => h y (List.mem_cons_of_mem _ hy))
      simp only [updateTimestamp] at hxs
      rw [hxs]

lemma appIteration_ok (dev : DeviceInput) (now : ℕ) (sink : List Stored)
    (h : ∀ x ∈ sink, x.oid < sink.length) :
    appIteration dev now .ok sink =
      sink ++ [⟨sink.length, { appMapDevice dev with timestamp := some now }⟩] := by
  show updateTimestamp (sink ++ [⟨sink.length, appMapDevice dev⟩]) sink.length now = _
  have h1 := updateTimestamp_no_match sink.length now sink
    (fun x hx => Nat.ne_of_lt (h x hx))
  simp only [updateTimestamp, List.map_append] at h1 ⊢
  rw [h1]
  simp

/-- Pairwise order on stored documents: whenever both creation timestamps
are present, the earlier-inserted one is not larger. -/
def tsOrdered (a b : Stored) : Prop :=
  ∀ ta tb, a.doc.timestamp = some ta → b.doc.timestamp = some tb → ta ≤ tb

/-- Invariant of the `app.py` poll loop: fresh `_id`s, timestamps
nondecreasing in insertion order, and every present timestamp is an
already-elapsed server-clock reading. -/
def AppInv (sc : ℕ → ℕ) (i : ℕ) (sink : List Stored) : Prop :=
  (∀ x ∈ sink, x.oid < sink.length) ∧
  sink.Pairwise tsOrdered ∧
  (∀ x ∈ sink, x.doc.timestamp = none ∨ ∃ k, k < i ∧ x.doc.timestamp = some (sc k))

lemma AppInv.mono {sc : ℕ → ℕ} {i j : ℕ} {sink : List Stored}
    (h : AppInv sc i sink) (hij : i ≤ j) : AppInv sc j sink := by
  refine ⟨h.1, h.2.1, fun x hx => ?_⟩
  rcases h.2.2 x hx with hn | ⟨k, hk, he⟩
  · exact Or.inl hn
  · exact Or.inr ⟨k, by omega, he⟩

lemma appIteration_preserves_inv {sc : ℕ → ℕ} (hm : Monotone sc)
    (dev : DeviceInput) (o : AppOutcome) {i : ℕ} {sink : List Stored}
    (h : AppInv sc i sink) : AppInv sc (i + 1) (appIteration dev (sc i) o sink) := by
  cases o with
  | fetchErr => exact h.mono (by omega)
  | insertErr => exact h.mono (by omega)
  | ok =>
      rw [appIteration_ok dev (sc i) sink h.1]
      refine ⟨?_, ?_, ?_⟩
      · intro x hx
        simp only [List.length_append, List.length_cons, List.length_nil]
        rcases List.mem_append.mp hx with hx | hx
        · have := h.1 x hx
          omega
        · simp at hx
          rw [hx]
          show sink.length < sink.length + 1
          omega
      · refine List.pairwise_append.mpr ⟨h.2.1, by simp, ?_⟩
        intro a ha b hb
        simp at hb
        rw [hb]
        intro ta tb hta htb
        simp at htb
        rcases h.2.2 a ha with hn | ⟨k, hk, he⟩
        · rw [hn] at hta; cases hta
        · rw [he] at hta
          injection hta with hta
          rw [← hta, ← htb]
          exact hm (by omega)
      · intro x hx
        rcases List.mem_append.mp hx with hx | hx
        · rcases h.2.2 x hx with hn | ⟨k, hk, he⟩
          · exact Or.inl hn
          · exact Or.inr ⟨k, by omega, he⟩
        · simp at hx
          rw [hx]
          exact Or.inr ⟨i, by omega, rfl⟩
  | updateErr =>
      have hshape : appIteration dev (sc i) .updateErr sink =
          sink ++ [⟨sink.length, appMapDevice dev⟩] := rfl
      rw [hshape]
      refine ⟨?_, ?_, ?_⟩
      · intro x hx
        simp only [List.length_append, List.length_cons, List.length_nil]
        rcases List.mem_append.mp hx with hx | hx
        · have := h.1 x hx
          omega
        · simp at hx
          rw [hx]
          show sink.length < sink.length + 1
          omega
      · refine List.pairwise_append.mpr ⟨h.2.1, by simp, ?_⟩
        intro a ha b hb
        simp at hb
        rw [hb]
        intro ta tb hta htb
        rw [appMapDevice_timestamp] at htb
        cases htb
      · intro x hx
        rcases List.mem_append.mp hx with hx | hx
        · rcases h.2.2 x hx with hn | ⟨k, hk, he⟩
          · exact Or.inl hn
          · exact Or.inr ⟨k, by omega, he⟩
        · simp at hx
          rw [hx]
          exact Or.inl (appMapDevice_timestamp dev)

lemma track_location_inv (dev : DeviceInput) {sc : ℕ → ℕ} (hm : Monotone sc) :
    ∀ (aos : List AppOutcome) (i : ℕ) (sink : List Stored),
      AppInv sc i sink →
      AppInv sc (i + aos.length) (track_location dev sc aos i sink) := by
  intro aos
  induction aos with
  | nil => intro i sink h; exact h
  | cons o rest ih =>
      intro i sink h
      show AppInv sc _ (track_location dev sc rest (i + 1) (appIteration dev (sc i) o sink))
      have := ih (i + 1) _ (appIteration_preserves_inv hm dev o h)
      exact this.mono (by simp; omega)

lemma appIteration_length (dev : DeviceInput) (now : ℕ) (o : AppOutcome)
    (sink : List Stored) :
    (appIteration dev now o sink).length =
      sink.length + (if o = .ok ∨ o = .updateErr then 1 else 0) := by
  cases o <;> simp [appIteration, insertOne, updateTimestamp]

lemma track_location_length (dev : DeviceInput) (sc : ℕ → ℕ) :
    ∀ (aos : List AppOutcome) (i : ℕ) (sink : List Stored),
      (track_location dev sc aos i sink).length =
        sink.length + aos.count AppOutcome.ok + aos.count AppOutcome.updateErr := by
  intro aos
  induction aos with
  | nil => intro i sink; simp [track_location]
  | cons o rest ih =>
      intro i sink
      show (track_location dev sc rest (i + 1) (appIteration dev (sc i) o sink)).length = _
      rw [ih, appIteration_length]
      cases o <;> simp [List.count_cons] <;> omega

lemma track_continuously_sink_length (clock : ℕ → ℕ) (devs : List DeviceInput) :
    ∀ (os : List TrackOutcome) (st : TrackState),
      (track_continuously clock devs os st).sink.length =
        st.sink.length + os.count TrackOutcome.ok * devs.length := by
  intro os
  induction os with
  | nil => intro st; simp [track_continuously]
  | cons o rest ih =>
      intro st
      show (track_continuously clock devs rest (trackIteration clock devs o st)).sink.length = _
      rw [ih]
      cases o with
      | ok =>
          simp [trackIteration, save_to_mongodb_sink, fetch_device_locations_length,
            List.count_cons, Nat.succ_mul]
          omega
      | fetchErr =>
          simp [trackIteration, List.count_cons]
      | saveErr =>
          simp [trackIteration, List.count_cons]

lemma track_continuously_append (clock : ℕ → ℕ) (devs : List DeviceInput) :
    ∀ (os os2 : List TrackOutcome) (st : TrackState),
      track_continuously clock devs (os ++ os2) st =
        track_continuously clock devs os2 (track_continuously clock devs os st) := by
  intro os
  induction os with
  | nil => intro os2 st; rfl
  | cons o rest ih =>
      intro os2 st
      show track_continuously clock devs (rest ++ os2) (trackIteration clock devs o st) = _
      exact ih os2 _

lemma track_location_append (dev : DeviceInput) (sc : ℕ → ℕ) :
    ∀ (aos aos2 : List AppOutcome) (i : ℕ) (s : List Stored),
      track_location dev sc (aos ++ aos2) i s =
        track_location dev sc aos2 (i + aos.length) (track_location dev sc aos i s) := by
  intro aos
  induction aos with
  | nil => intro aos2 i s; simp [track_location]
  | cons o rest ih =>
      intro aos2 i s
      show track_location dev sc (rest ++ aos2) (i + 1) (appIteration dev (sc i) o s) = _
      rw [ih]
      simp only [List.length_cons]
      have he : i + 1 + rest.length = i + (rest.length + 1) := by omega
      rw [he]
      rfl

/-- C6: for every request to a protected endpoint (GET /location,
GET /status, POST /alarm) made while no API key is configured, the
endpoint fails closed with a server-misconfiguration error (HTTP 500)
regardless of what key the request supplies; authentication is never
silently disabled. -/
theorem protected_endpoints_fail_closed (apiKey header query : Option String)
    (sink : List Stored) (d : Option String) (dev : DeviceInput) (now : ℕ)
    (h : strTruthy apiKey = false) :
    get_location apiKey header query sink d = GetLocResult.misconfigured ∧
    (get_location apiKey header query sink d).statusCode = 500 ∧
    get_status apiKey header query dev now = HttpResp.misconfigured ∧
    (get_status apiKey header query dev now).statusCode = 500 ∧
    trigger_alarm apiKey header query dev now = HttpResp.misconfigured ∧
    (trigger_alarm apiKey header query dev now).statusCode = 500 := by
  have ha : require_api_key apiKey header query = .misconfigured := by
    simp [require_api_key, h]
  simp [get_location, get_status, trigger_alarm, ha, GetLocResult.statusCode,
    HttpResp.statusCode]

/-- Witness for C6 at a concrete request: no configured key, a supplied
header key, empty collection. -/
theorem protected_endpoints_fail_closed_witness :
    strTruthy none = false ∧
    get_location none (some "anything") none [] none = GetLocResult.misconfigured ∧
    (trigger_alarm none (some "anything") none sampleDevice 0).statusCode = 500 := by
  refine ⟨rfl, ?_, ?_⟩
  · exact (protected_endpoints_fail_closed none (some "anything") none [] none
      sampleDevice 0 rfl).1
  · exact (protected_endpoints_fail_closed none (some "anything") none [] none
      sampleDevice 0 rfl).2.2.2.2.2

/-- C10: authorization is decided solely by the X-API-Key header when one
is supplied (truthy); the api_key query parameter is consulted only when
the header is absent or empty. -/
theorem header_decides_before_query (apiKey header query : Option String) :
    (strTruthy header = true →
      require_api_key apiKey header query = require_api_key apiKey header none) ∧
    (strTruthy header = false →
      require_api_key apiKey header query = require_api_key apiKey none query) := by
  have hn : strTruthy none = false := rfl
  constructor
  · intro h
    simp [require_api_key, providedKey, h]
  · intro h
    simp [require_api_key, providedKey, h, hn]

/-- Witness for C10: a request carrying both a header key and a query
key ignores the query; a request with an empty header falls back to the
query. -/
theorem header_decides_before_query_witness :
    strTruthy (some "h") = true ∧
    require_api_key (some "k") (some "h") (some "k") =
      require_api_key (some "k") (some "h") none ∧
    strTruthy (some "") = false ∧
    require_api_key (some "k") (some "") (some "k") =
      require_api_key (some "k") none (some "k") := by
  refine ⟨by decide, ?_, by decide, ?_⟩
  · exact (header_decides_before_query (some "k") (some "h") (some "k")).1 (by decide)
  · exact (header_decides_before_query (some "k") (some "") (some "k")).2 (by decide)

/-- C5: for every GET /location request with a configured key: a falsy
supplied key gives 401; a truthy supplied key different from the
configured one gives 403; the correct key with no stored document gives
404; the correct key with a stored (timestamped) document returns it
with a stringified identifier and an ISO-8601 timestamp. -/
theorem get_location_responses (apiKey header query : Option String)
    (sink : List Stored) (d : Option String) (hkey : strTruthy apiKey = true) :
    (strTruthy (providedKey header query) = false →
      get_location apiKey header query sink d = GetLocResult.missingKey ∧
      (get_location apiKey header query sink d).statusCode = 401) ∧
    (strTruthy (providedKey header query) = true →
      providedKey header query ≠ apiKey →
      get_location apiKey header query sink d = GetLocResult.invalidKey ∧
      (get_location apiKey header query sink d).statusCode = 403) ∧
    (providedKey header query = apiKey → mostRecentStored sink d = none →
      get_location apiKey header query sink d = GetLocResult.noData ∧
      (get_location apiKey header query sink d).statusCode = 404) ∧
    (∀ (s : Stored) (t : ℕ), providedKey header query = apiKey →
      mostRecentStored sink d = some s → s.doc.timestamp = some t →
      get_location apiKey header query sink d =
        GetLocResult.found (toString s.oid) (isoformat t) s.doc ∧
      (get_location apiKey header query sink d).statusCode = 200) := by
  refine ⟨?_, ?_, ?_, ?_⟩
  · intro h
    have ha : require_api_key apiKey header query = .missingKey := by
      simp [require_api_key, hkey, h]
    simp [get_location, ha, GetLocResult.statusCode]
  · intro h hne
    have ha : require_api_key apiKey header query = .invalidKey := by
      simp [require_api_key, hkey, h, hne]
    simp [get_location, ha, GetLocResult.statusCode]
  · intro he hnone
    have ha : require_api_key apiKey header query = .authorized := by
      simp [require_api_key, he, hkey]
    simp [get_location, ha, hnone, GetLocResult.statusCode]
  · intro s t he hsome hts
    have ha : require_api_key apiKey header query = .authorized := by
      simp [require_api_key, he, hkey]
    simp [get_location, ha, hsome, hts, GetLocResult.statusCode]

/-- A stored document with a server-assigned timestamp, for witnesses. -/
def sampleStored : Stored :=
  { oid := 0, doc := { appMapDevice sampleDevice with timestamp := some 5 } }

/-- Witness for C5 at concrete requests: missing key, wrong key, correct
key over an empty collection, and correct key over a collection holding
one timestamped document. -/
theorem get_location_responses_witness :
    strTruthy (some "k") = true ∧
    get_location (some "k") none none [] (some "A") = GetLocResult.missingKey ∧
    get_location (some "k") (some "x") none [] (some "A") = GetLocResult.invalidKey ∧
    get_location (some "k") (some "k") none [] (some "A") = GetLocResult.noData ∧
    get_location (some "k") (some "k") none [sampleStored] (some "A") =
      GetLocResult.found (toString sampleStored.oid) (isoformat 5) sampleStored.doc := by
  refine ⟨by decide, ?_, ?_, ?_, ?_⟩
  · exact ((get_location_responses (some "k") none none [] (some "A")
      (by decide)).1 (by decide)).1
  · exact ((get_location_responses (some "k") (some "x") none [] (some "A")
      (by decide)).2.1 (by decide) (by decide)).1
  · exact ((get_location_responses (some "k") (some "k") none [] (some "A")
      (by decide)).2.2.1 (by decide) rfl).1
  · exact ((get_location_responses (some "k") (some "k") none [sampleStored] (some "A")
      (by decide)).2.2.2 sampleStored 5 (by decide) (by decide) rfl).1

/-- C7: when the input location is unavailable, both mappers produce a
document whose location fields are null, raising nothing; and every
optional input field may be missing — the mapped fields are the lenient
defaults of the source's dict lookups. -/
theorem mapper_tolerates_missing_input (data : DeviceData) (st : DeviceStatus)
    (loc : Option LocationData) (now : ℕ) :
    ((fetchMapDevice ⟨ data, st, none⟩ now).location = none ∧
     (fetchMapDevice ⟨ data, st, none⟩ now).location_data = none ∧
     (appMapDevice ⟨ data, st, none⟩).location = none ∧
     (appMapDevice ⟨ data, st, none⟩).location_data = none) ∧
    ((fetchMapDevice ⟨ data, st, loc⟩ now).name = data.name.getD "Unknown" ∧
     (fetchMapDevice ⟨ data, st, loc⟩ now).model =
       data.deviceDisplayName.getD "Unknown" ∧
     (fetchMapDevice ⟨ data, st, loc⟩ now).device_class =
       data.deviceClass.getD "Unknown" ∧
     (fetchMapDevice ⟨ data, st, loc⟩ now).raw_model =
       data.rawDeviceModel.getD "Unknown" ∧
     (fetchMapDevice ⟨ data, st, loc⟩ now).device_status = data.deviceStatus ∧
     (fetchMapDevice ⟨ data, st, loc⟩ now).location_enabled =
       data.locationEnabled.getD false ∧
     (fetchMapDevice ⟨ data, st, loc⟩ now).battery_level = st.batteryLevel ∧
     (fetchMapDevice ⟨ data, st, loc⟩ now).battery_status = st.batteryStatus) :=
  ⟨⟨rfl, rfl, rfl, rfl⟩, rfl, rfl, rfl, rfl, rfl, rfl, rfl, rfl⟩

/-- C8 counterexample: at the example input, the dict the mapper actually
builds is not equal to the four-field record the spec's example states
(the built dict has twelve keys, nests the coordinates under
`location_data`, and stores a GeoJSON point under `location`). -/
theorem jane_record_not_spec_shape :
    deviceInfoDict (fetchMapDevice (janeInput 1700000000000) 3) ≠
      specExpectedRecord 1700000000000 := by
  intro h
  have hlen := congrArg List.length h
  simp [deviceInfoDict, specExpectedRecord] at hlen

/-- C8 amended: for the example input the mapper's document carries name
"Jane's iPhone", model "iPhone 16 Pro", battery_level 0.82, and location
data latitude 37.7749, longitude -122.4194, accuracy 5.0, fix-time `T` —
but under the source's own key names and nesting (a `location_data`
sub-dict plus a GeoJSON `location`), alongside the document's other
fields, rather than as the spec's literal four-field record. -/
theorem jane_record_fields (T : ℤ) (now : ℕ) :
    (fetchMapDevice (janeInput T) now).name = "Jane\x27s iPhone" ∧
    (fetchMapDevice (janeInput T) now).model = "iPhone 16 Pro" ∧
    (fetchMapDevice (janeInput T) now).battery_level = some (82 / 100 : ℚ) ∧
    (fetchMapDevice (janeInput T) now).location_data =
      some { latitude := some (377749 / 10000 : ℚ)
             longitude := some (-1224194 / 10000 : ℚ)
             accuracy := some 5
             position_type := none
             is_old := false
             location_timestamp := some T } ∧
    (fetchMapDevice (janeInput T) now).location =
      some { type := "Point"
             coordinates := [some (-1224194 / 10000 : ℚ), some (377749 / 10000 : ℚ)] } :=
  ⟨rfl, rfl, rfl, rfl, rfl⟩

/-- C3 counterexample: in the standalone tracker, the document handed to
`save_to_mongodb` already carries a mapper-assigned timestamp (the
`datetime.now()` reading), and the sink persists it unchanged — at the
concrete input of one device polled once under the identity clock. -/
theorem standalone_timestamp_from_mapper :
    (fetch_device_locations (fun n => n) 0 [sampleDevice]).map
        (fun r => r.timestamp) = [some 0] ∧
    (save_to_mongodb [] (fetch_device_locations (fun n => n) 0 [sampleDevice])).1 =
      fetch_device_locations (fun n => n) 0 [sampleDevice] := by
  constructor
  · rfl
  · rfl

/-- C3 amended: only the Flask app's sink assigns the creation timestamp
at write time — its mapper emits no timestamp and the follow-up
`$currentDate` update fills it in; in the standalone trackers the mapper
itself assigns `datetime.now()` at fetch time and `save_to_mongodb`
stores the documents unchanged. -/
theorem timestamp_assignment_by_path (dev : DeviceInput) (now serverNow : ℕ)
    (sink : List Stored) (c locs : List DeviceInfo) :
    (appMapDevice dev).timestamp = none ∧
    (appIteration dev serverNow AppOutcome.ok sink).getLast? =
      some ⟨sink.length, { appMapDevice dev with timestamp := some serverNow }⟩ ∧
    (fetchMapDevice dev now).timestamp = some now ∧
    (save_to_mongodb c locs).1 = c ++ locs := by
  refine ⟨rfl, ?_, rfl, save_to_mongodb_sink c locs⟩
  show (updateTimestamp (sink ++ [⟨sink.length, appMapDevice dev⟩])
      sink.length serverNow).getLast? = _
  simp [updateTimestamp, List.map_append]

/-- C9: persisting a record in the Flask poll loop is not atomic with
assigning its timestamp — the document is inserted without a timestamp
and a separate update adds it; if the update fails, a persisted document
with no timestamp field exists, and GET /location serving it returns 500
because `latest["timestamp"].isoformat()` raises. -/
theorem get_location_500_after_failed_update (dev : DeviceInput)
    (serverNow : ℕ) (k : String) (hk : k ≠ "") :
    (appMapDevice dev).timestamp = none ∧
    appIteration dev serverNow AppOutcome.updateErr [] =
      (insertOne [] (appMapDevice dev)).1 ∧
    (∀ s ∈ appIteration dev serverNow AppOutcome.updateErr [],
      s.doc.timestamp = none) ∧
    get_location (some k) (some k) none
        (appIteration dev serverNow AppOutcome.updateErr []) dev.data.id =
      GetLocResult.keyError ∧
    GetLocResult.keyError.statusCode = 500 := by
  have htr : strTruthy (some k) = true := by
    have hke : k.isEmpty = false := by
      rcases h : k.isEmpty with _ | _
      · rfl
      · exact absurd ((String.isEmpty_iff k).mp h) hk
    simp [strTruthy, hke]
  have hsink : appIteration dev serverNow AppOutcome.updateErr [] =
      [⟨0, appMapDevice dev⟩] := rfl
  refine ⟨rfl, rfl, ?_, ?_, rfl⟩
  · intro s hs
    rw [hsink] at hs
    simp at hs
    rw [hs]
    exact appMapDevice_timestamp dev
  · have ha : require_api_key (some k) (some k) none = .authorized := by
      simp [require_api_key, providedKey, htr]
    have hmrs : mostRecentStored [(⟨0, appMapDevice dev⟩ : Stored)] dev.data.id =
        some ⟨0, appMapDevice dev⟩ := by
      simp [mostRecentStored, List.filter, appMapDevice_device_id, argmaxTs]
    rw [hsink]
    simp [get_location, ha, hmrs, appMapDevice_timestamp]

/-- Witness for C9 at a concrete device and key. -/
theorem get_location_500_after_failed_update_witness :
    "secret" ≠ "" ∧
    get_location (some "secret") (some "secret") none
        (appIteration sampleDevice 7 AppOutcome.updateErr [])
        sampleDevice.data.id = GetLocResult.keyError :=
  ⟨by decide,
   (get_location_500_after_failed_update sampleDevice 7 "secret" (by decide)).2.2.2.1⟩

/-- C4 counterexample: a concrete poll iteration of the Flask loop whose
only failing step is the persistence-phase timestamp update is caught,
yet contributes one persisted (timestampless) record rather than zero. -/
theorem update_error_iteration_persists_record :
    track_location sampleDevice (fun n => n) [AppOutcome.updateErr] 0 [] =
      [⟨0, appMapDevice sampleDevice⟩] ∧
    (track_location sampleDevice (fun n => n) [AppOutcome.updateErr] 0 []).length ≠ 0 := by
  have h1 : track_location sampleDevice (fun n => n) [AppOutcome.updateErr] 0 [] =
      [⟨0, appMapDevice sampleDevice⟩] := rfl
  refine ⟨h1, ?_⟩
  rw [h1]
  simp

/-- C4 amended: an error in device listing, status/location fetch,
mapping, or the insert itself is caught and the iteration contributes
zero records; an error in the Flask loop's timestamp update after a
successful insert still leaves that iteration's (timestampless) record
persisted.  In every case the loop is not stopped: all subsequent listed
iterations execute, and the final record count is exactly the number of
fully or partially persisted iterations. -/
theorem iteration_errors_contained (clock sc : ℕ → ℕ) (devs : List DeviceInput)
    (dev : DeviceInput) :
    (∀ (st : TrackState) (o : TrackOutcome), o ≠ TrackOutcome.ok →
      (trackIteration clock devs o st).sink = st.sink) ∧
    (∀ (sink : List Stored) (n : ℕ) (o : AppOutcome),
      o = AppOutcome.fetchErr ∨ o = AppOutcome.insertErr →
      appIteration dev n o sink = sink) ∧
    (∀ (sink : List Stored) (n : ℕ),
      (appIteration dev n AppOutcome.updateErr sink).length = sink.length + 1 ∧
      (appIteration dev n AppOutcome.updateErr sink).getLast? =
        some ⟨sink.length, appMapDevice dev⟩) ∧
    (∀ (os os2 : List TrackOutcome) (st : TrackState),
      track_continuously clock devs (os ++ os2) st =
        track_continuously clock devs os2 (track_continuously clock devs os st)) ∧
    (∀ (aos aos2 : List AppOutcome) (i : ℕ) (s : List Stored),
      track_location dev sc (aos ++ aos2) i s =
        track_location dev sc aos2 (i + aos.length) (track_location dev sc aos i s)) ∧
    (∀ (os : List TrackOutcome) (st : TrackState),
      (track_continuously clock devs os st).sink.length =
        st.sink.length + os.count TrackOutcome.ok * devs.length) ∧
    (∀ (aos : List AppOutcome) (i : ℕ) (s : List Stored),
      (track_location dev sc aos i s).length =
        s.length + aos.count AppOutcome.ok + aos.count AppOutcome.updateErr) := by
  refine ⟨?_, ?_, ?_, track_continuously_append clock devs,
    track_location_append dev sc, track_continuously_sink_length clock devs,
    track_location_length dev sc⟩
  · intro st o ho
    cases o with
    | ok => exact absurd rfl ho
    | fetchErr => rfl
    | saveErr => rfl
  · rintro sink n o (rfl | rfl)
    · rfl
    · rfl
  · intro sink n
    constructor
    · simp [appIteration, insertOne]
    · show ((insertOne sink (appMapDevice dev)).1).getLast? = _
      simp [insertOne]

/-- Witness for C4's amended claim: a failed fetch contributes nothing,
a failed update contributes one record, and a run with an error in the
middle still executes its later iterations. -/
theorem iteration_errors_contained_witness :
    TrackOutcome.fetchErr ≠ TrackOutcome.ok ∧
    (trackIteration (fun n => n) [sampleDevice] TrackOutcome.fetchErr
      ⟨[], 0⟩).sink = ([] : List DeviceInfo) ∧
    appIteration sampleDevice 0 AppOutcome.insertErr [] = ([] : List Stored) ∧
    (track_location sampleDevice (fun n => n)
        [AppOutcome.fetchErr, AppOutcome.ok] 0 []).length =
      ([] : List Stored).length +
        [AppOutcome.fetchErr, AppOutcome.ok].count AppOutcome.ok +
        [AppOutcome.fetchErr, AppOutcome.ok].count AppOutcome.updateErr := by
  have h := iteration_errors_contained (fun n => n) (fun n => n)
    [sampleDevice] sampleDevice
  exact ⟨by decide, h.1 ⟨[], 0⟩ TrackOutcome.fetchErr (by decide),
    h.2.1 [] 0 AppOutcome.insertErr (Or.inr rfl),
    h.2.2.2.2.2.2 [AppOutcome.fetchErr, AppOutcome.ok] 0 []⟩

/-- C2: creation timestamps of the records persisted by one single-writer
process instance are monotonically non-decreasing in insertion order —
in the standalone tracker under its (monotone) mapper clock, and in the
Flask app for every pair of stored documents that carry server-assigned
timestamps, whatever each iteration's outcome was. -/
theorem creation_timestamps_nondecreasing (clock sc : ℕ → ℕ)
    (hc : Monotone clock) (hsc : Monotone sc) (devs : List DeviceInput)
    (os : List TrackOutcome) (dev : DeviceInput) (aos : List AppOutcome) :
    (track_continuously clock devs os ⟨[], 0⟩).sink.Pairwise
      (fun a b => tsGe b.timestamp a.timestamp = true) ∧
    (track_location dev sc aos 0 []).Pairwise tsOrdered := by
  constructor
  · exact (track_continuously_sink_pairwise clock hc devs os ⟨[], 0⟩
      (by simp) (by simp)).1
  · exact (track_location_inv dev hsc aos 0 [] ⟨by simp, by simp, by simp⟩).2.1

/-- Witness for C2: two successful standalone iterations over one device
under the identity clock, and a Flask run with a successful iteration
followed by a failed-update iteration. -/
theorem creation_timestamps_nondecreasing_witness :
    (track_continuously (fun n => n) [sampleDevice]
        [TrackOutcome.ok, TrackOutcome.ok] ⟨[], 0⟩).sink.Pairwise
      (fun a b => tsGe b.timestamp a.timestamp = true) ∧
    (track_location sampleDevice (fun n => n)
        [AppOutcome.ok, AppOutcome.updateErr] 0 []).Pairwise tsOrdered :=
  creation_timestamps_nondecreasing (fun n => n) (fun n => n)
    (fun _ _ h => h) (fun _ _ h => h) [sampleDevice]
    [TrackOutcome.ok, TrackOutcome.ok] sampleDevice
    [AppOutcome.ok, AppOutcome.updateErr]

/-- C1: a run of N successful poll iterations against a provider
returning the same M (distinct-id) devices each iteration leaves exactly
N×M documents in the sink, and for each polled device the
timestamp-descending `find_one` query returns that device's document
from the latest iteration. -/
theorem successful_run_sink_and_most_recent (clock : ℕ → ℕ) (hc : StrictMono clock)
    (devs : List DeviceInput) (hnd : (devs.map (fun x => x.data.id)).Nodup)
    (N : ℕ) (hN : 0 < N) (dev : DeviceInput) (hdev : dev ∈ devs) :
    (track_continuously clock devs (List.replicate N .ok) ⟨[], 0⟩).sink.length =
      N * devs.length ∧
    ∃ r, mostRecentFor
        (track_continuously clock devs (List.replicate N .ok) ⟨[], 0⟩).sink
        dev.data.id = some r ∧
      r ∈ fetch_device_locations clock ((N - 1) * devs.length) devs ∧
      r.device_id = dev.data.id := by
  have hrun := track_continuously_ok_run clock devs N ⟨[], 0⟩
  rw [hrun]
  simp only [List.nil_append]
  obtain ⟨⟨j0, hj0⟩, hget⟩ := List.mem_iff_get.mp hdev
  have hM : 0 < devs.length := List.length_pos.mpr (List.ne_nil_of_mem hdev)
  have hmbatch : fetchMapDevice dev (clock ((N - 1) * devs.length + j0)) ∈
      fetch_device_locations clock ((N - 1) * devs.length) devs := by
    apply mem_fetch_device_locations.mpr
    exact ⟨j0, hj0, by rw [hget]⟩
  have hmsink : fetchMapDevice dev (clock ((N - 1) * devs.length + j0)) ∈
      okBatches clock devs 0 N := by
    apply mem_okBatches.mpr
    refine ⟨N - 1, by omega, ?_⟩
    simpa using hmbatch
  refine ⟨okBatches_length clock devs N 0,
    ⟨fetchMapDevice dev (clock ((N - 1) * devs.length + j0)), ?_, hmbatch,
      fetchMapDevice_device_id dev _⟩⟩
  unfold mostRecentFor
  apply argmaxTs_eq_of_max
  · exact List.mem_filter.mpr ⟨hmsink, by simp [fetchMapDevice_device_id]⟩
  · intro x hx hxm
    obtain ⟨hxS, hxid⟩ := List.mem_filter.mp hx
    obtain ⟨i, hiN, hxb⟩ := mem_okBatches.mp hxS
    obtain ⟨j, hj, hxe⟩ := mem_fetch_device_locations.mp hxb
    simp only [Nat.zero_add] at hxe
    have hid : (devs.get ⟨j, hj⟩).data.id = (devs.get ⟨j0, hj0⟩).data.id := by
      rw [hget]
      have hx2 : x.device_id = dev.data.id := by simpa using hxid
      rw [hxe] at hx2
      simpa [fetchMapDevice_device_id] using hx2
    have hjj : j = j0 := by
      have hmap : (devs.map (fun y => y.data.id)).get ⟨j, by simpa using hj⟩ =
          (devs.map (fun y => y.data.id)).get ⟨j0, by simpa using hj0⟩ := by
        simpa [List.get_eq_getElem, List.getElem_map] using hid
      have hfin := (List.Nodup.get_inj_iff hnd).mp hmap
      simpa using hfin
    subst hjj
    have hgd : devs.get ⟨j, hj⟩ = dev := by rw [← hget]
    rw [hgd] at hxe
    by_cases hi : i = N - 1
    · exact absurd (by rw [hxe, hi]) hxm
    · have h1 : i * devs.length < (N - 1) * devs.length :=
        (Nat.mul_lt_mul_right hM).mpr (by omega)
      have hlt : i * devs.length + j < (N - 1) * devs.length + j :=
        Nat.add_lt_add_right h1 j
      rw [hxe, fetchMapDevice_timestamp, fetchMapDevice_timestamp]
      exact tsLt_some_some.mpr (hc hlt)

/-- Witness for C1: two successful iterations over a single device under
the identity clock. -/
theorem successful_run_sink_and_most_recent_witness :
    (track_continuously (fun n => n) [sampleDevice]
        (List.replicate 2 .ok) ⟨[], 0⟩).sink.length = 2 * [sampleDevice].length ∧
    ∃ r, mostRecentFor
        (track_continuously (fun n => n) [sampleDevice]
          (List.replicate 2 .ok) ⟨[], 0⟩).sink
        sampleDevice.data.id = some r ∧
      r ∈ fetch_device_locations (fun n => n)
          ((2 - 1) * [sampleDevice].length) [sampleDevice] ∧
      r.device_id = sampleDevice.data.id :=
  successful_run_sink_and_most_recent (fun n => n) (fun _ _ h => h)
    [sampleDevice] (by simp) 2 (by omega) sampleDevice (by simp)
